import Mathlib

/-!
Shallow embedding of the tuavec e-commerce backend (Express + Mongoose) and
verification of its specification claims.

Sources embedded:
- src/utils/helpers.js      : calculateShipping, saveOTP, verifyOTP
- src/middleware/auth.js    : rateLimit (fixed-window limiter)
- src/routes/orders.js      : order creation, status update, payment
                              verification, return request
- src/unnamed/part_000      : review creation, moderation, updateProductRating
- src/models/index.js       : the document shapes the routes read and write

Conventions: JavaScript numbers that only ever hold integers are modelled as
Int; timestamps as Int milliseconds; Mongo collections as Lean lists of
records; `findOne`/`findById` as List.find?; `findByIdAndUpdate` as a map
over the collection (document ids are unique); Math.round and Math.ceil are
modelled exactly on Rat/Int.  Definitions named xxxSpec are worded from the
specification text and exist only to be compared with the code-derived
definitions.
-/

set_option maxHeartbeats 1000000

namespace Tuavec

/-! ## src/utils/helpers.js : calculateShipping -/

/-- The region-keyed flat-rate table of calculateShipping (helpers.js:221). -/
def shippingRates : List (String × Int) :=
  [("Dhaka", 60), ("Chittagong", 100), ("Sylhet", 120), ("Rajshahi", 120),
   ("Khulna", 120), ("Barisal", 130), ("Rangpur", 130), ("Mymensingh", 100)]

/-- JS `x || d` on a looked-up number: `undefined` (here: none) and the
falsy 0 both select the default. -/
def jsOr (x : Option Int) (d : Int) : Int :=
  match x with
  | some v => if v = 0 then d else v
  | none => d

/-- helpers.js:220 calculateShipping(region, itemCount). -/
def calculateShipping (region : String) (itemCount : Int) : Int :=
  let baseShipping := jsOr ((shippingRates.find? (fun rt => rt.1 == region)).map (·.2)) 100
  let additionalFee := max 0 (itemCount - 3) * 20
  baseShipping + additionalFee

/-- Spec wording (spec.md section 4.4 step 3 and the claim): base rate from the
named table with default fallback 100, plus max(0, totalItemCount - 3) * 20. -/
def shippingSpecBase (region : String) : Int :=
  if region = "Dhaka" then 60
  else if region = "Chittagong" then 100
  else if region = "Sylhet" then 120
  else if region = "Rajshahi" then 120
  else if region = "Khulna" then 120
  else if region = "Barisal" then 130
  else if region = "Rangpur" then 130
  else if region = "Mymensingh" then 100
  else 100

/-- Spec wording: shipping = base rate + surcharge. -/
def shippingSpec (region : String) (totalItemCount : Int) : Int :=
  shippingSpecBase region + max 0 (totalItemCount - 3) * 20

/-! ## src/middleware/auth.js : rateLimit -/

structure RateConfig where
  windowMs : Int
  max : Int
deriving DecidableEq, Repr

/-- One entry of rateLimitStore (auth.js:108): request count and window start. -/
structure RateEntry where
  count : Int
  resetTime : Int
deriving DecidableEq, Repr

inductive RateDecision where
  | allow : RateDecision
  | reject (retryAfter : Int) : RateDecision
deriving DecidableEq, Repr

/-- `Math.ceil(a / 1000)` for an integer a (JS division then ceil). -/
def jsCeil1000 (a : Int) : Int := -((-a).fdiv 1000)

/-- auth.js:117-163, the behaviour of one rate-limiter call for one key.
The store-wide cleanup loop (auth.js:122-126) deletes exactly the entries the
reset branch (auth.js:140-143) would reset, so per key the two collapse to the
single reset test below.  A rejected request still stores its incremented
count (the Map holds the mutated object). -/
def rateLimitStep (cfg : RateConfig) (now : Int) (entry : Option RateEntry) :
    RateDecision × RateEntry :=
  let rateData :=
    match entry with
    | none => { count := 0, resetTime := now : RateEntry }
    | some d =>
      if now - d.resetTime > cfg.windowMs then { count := 0, resetTime := now } else d
  let rateData := { rateData with count := rateData.count + 1 }
  if rateData.count > cfg.max then
    (RateDecision.reject (jsCeil1000 (rateData.resetTime + cfg.windowMs - now)), rateData)
  else
    (RateDecision.allow, rateData)

/-! ## src/models/index.js + src/utils/helpers.js : OTP records -/

/-- One document of the OTP collection (models/index.js:250). -/
structure OtpRecord where
  phone : String
  otp : String
  purpose : String
  expiresAt : Int
  verified : Bool
  attempts : Int
deriving DecidableEq, Repr

inductive OtpResult where
  | success : OtpResult
  | invalidOrExpired : OtpResult
  | tooManyAttempts : OtpResult
deriving DecidableEq, Repr

/-- The findOne filter of verifyOTP (helpers.js:55-61): phone, code and purpose
match, the record is unconsumed, and it has not yet expired. -/
def otpMatches (phone code purpose : String) (now : Int) (r : OtpRecord) : Bool :=
  r.phone == phone && r.otp == code && r.purpose == purpose &&
    r.verified == false && now < r.expiresAt

/-- Replace the first occurrence of a document (Mongoose doc.save writes back
the one fetched document). -/
def replaceFirst : List OtpRecord → OtpRecord → OtpRecord → List OtpRecord
  | [], _, _ => []
  | r :: rest, old, upd =>
    if r = old then upd :: rest else r :: replaceFirst rest old upd

/-- helpers.js:54-80 verifyOTP. -/
def verifyOTP (phone code purpose : String) (now : Int) (db : List OtpRecord) :
    OtpResult × List OtpRecord :=
  match db.find? (otpMatches phone code purpose now) with
  | none => (OtpResult.invalidOrExpired, db)
  | some otpDoc =>
    let attempts := otpDoc.attempts + 1
    if attempts > 3 then
      (OtpResult.tooManyAttempts, db.erase otpDoc)
    else
      (OtpResult.success,
        replaceFirst db otpDoc { otpDoc with attempts := attempts, verified := true })

/-- helpers.js:36-52 saveOTP: delete all records for (phone, purpose), then
create a fresh one (code passed in; the source draws it from generateOTP). -/
def saveOTP (phone purpose code : String) (now : Int) (db : List OtpRecord) :
    List OtpRecord :=
  db.filter (fun r => !(r.phone == phone && r.purpose == purpose)) ++
    [{ phone := phone, otp := code, purpose := purpose,
       expiresAt := now + 5 * 60 * 1000, verified := false, attempts := 0 }]

/-! ## src/models/index.js : Product, Order, Review shapes -/

/-- The fields of the Product model (models/index.js:28) the verified routes
read or write.  rating is a Rat because updateProductRating stores a value
rounded to one decimal. -/
structure Product where
  id : Nat
  title : String
  price : Int
  stock : Int
  salesCount : Int
  rating : Rat
  reviewCount : Int
deriving DecidableEq, Repr

structure Customer where
  name : String
  email : String
  phone : String
deriving DecidableEq, Repr

structure Address where
  region : String
  city : String
  address : String
deriving DecidableEq, Repr

/-- One element of req.body.items in the create-order route. -/
structure ItemRequest where
  productId : Nat
  quantity : Int
deriving DecidableEq, Repr

/-- One order line item, snapshotted at creation (orders.js:51-60). -/
structure OrderItem where
  product : Nat
  title : String
  price : Int
  quantity : Int
  subtotal : Int
deriving DecidableEq, Repr

inductive PaymentStatus where
  | unpaid : PaymentStatus
  | pending : PaymentStatus
  | paid : PaymentStatus
  | refunded : PaymentStatus
deriving DecidableEq, Repr

structure PaymentDetails where
  transactionId : String
  senderNumber : String
  amount : Int
  verifiedBy : Nat
  verifiedAt : Int
deriving DecidableEq, Repr

structure TimelineEntry where
  status : String
  message : String
  timestamp : Int
deriving DecidableEq, Repr

structure CourierInfo where
  name : Option String
  trackingNumber : Option String
deriving DecidableEq, Repr

structure ReturnRequest where
  requested : Bool
  reason : String
  status : String
deriving DecidableEq, Repr

/-- The fields of the Order model (models/index.js:126) the verified routes
read or write. -/
structure Order where
  orderNumber : String
  customer : Customer
  shippingAddress : Address
  items : List OrderItem
  subtotal : Int
  shippingCost : Int
  discount : Int
  total : Int
  paymentMethod : String
  paymentStatus : PaymentStatus
  status : String
  timeline : List TimelineEntry
  courier : Option CourierInfo
  deliveredAt : Option Int
  paymentDetails : Option PaymentDetails
  returnRequest : Option ReturnRequest
deriving DecidableEq, Repr

/-- The persistent store as the order routes see it. -/
structure Store where
  products : List Product
  orders : List Order
deriving DecidableEq, Repr

/-! ## src/routes/orders.js : order creation -/

inductive CreateOrderError where
  | missingFields : CreateOrderError
  | productNotFound (productId : Nat) : CreateOrderError
  | insufficientStock (title : String) : CreateOrderError
deriving DecidableEq, Repr

/-- True for the two errors of the per-item loop, which name the offending
product; false for the field-validation error. -/
def CreateOrderError.itemError : CreateOrderError → Prop
  | CreateOrderError.missingFields => False
  | CreateOrderError.productNotFound _ => True
  | CreateOrderError.insufficientStock _ => True

/-- Product.findById (unique ids). -/
def findProduct (ps : List Product) (pid : Nat) : Option Product :=
  ps.find? (fun p => p.id == pid)

/-- The per-item validation/snapshot loop of the create-order route
(orders.js:31-61): fetch each product, fail the whole order on a missing
product or insufficient stock, otherwise accumulate the subtotal and snapshot
the line item. -/
def buildOrderItems (ps : List Product) :
    List ItemRequest → Except CreateOrderError (List OrderItem × Int)
  | [] => Except.ok ([], 0)
  | item :: rest =>
    match findProduct ps item.productId with
    | none => Except.error (CreateOrderError.productNotFound item.productId)
    | some product =>
      if product.stock < item.quantity then
        Except.error (CreateOrderError.insufficientStock product.title)
      else
        match buildOrderItems ps rest with
        | Except.error e => Except.error e
        | Except.ok (tail, restSubtotal) =>
          let itemSubtotal := product.price * item.quantity
          Except.ok
            ({ product := product.id, title := product.title, price := product.price,
               quantity := item.quantity, subtotal := itemSubtotal } :: tail,
             itemSubtotal + restSubtotal)

/-- `Product.findByIdAndUpdate(id, inc stock by -qty, salesCount by qty)`
(orders.js:100-105): an unconditional increment, with no filter on the
current stock. -/
def decrementStock (ps : List Product) (pid : Nat) (qty : Int) : List Product :=
  ps.map fun p =>
    if p.id == pid then
      { p with stock := p.stock - qty, salesCount := p.salesCount + qty }
    else p

/-- The order document Order.create persists (orders.js:76-96), with
total = subtotal + shippingCost - discount and paymentStatus defaulted from
the payment method. -/
def mkOrder (orderNumber : String) (customer : Customer) (shippingAddress : Address)
    (paymentMethod : String) (orderItems : List OrderItem)
    (subtotal shippingCost discount : Int) (now : Int) : Order :=
  { orderNumber := orderNumber
    customer := customer
    shippingAddress := shippingAddress
    items := orderItems
    subtotal := subtotal
    shippingCost := shippingCost
    discount := discount
    total := subtotal + shippingCost - discount
    paymentMethod := paymentMethod
    paymentStatus :=
      if paymentMethod == "cod" then PaymentStatus.unpaid else PaymentStatus.pending
    status := "pending"
    timeline := [{ status := "pending", message := "Order placed successfully",
                   timestamp := now }]
    courier := none
    deliveredAt := none
    paymentDetails := none
    returnRequest := none }

/-- req.body of the create-order route.  Absent fields are none; JS also
treats an empty paymentMethod string as missing (falsy). -/
structure CreateOrderRequest where
  customer : Option Customer
  shippingAddress : Option Address
  items : List ItemRequest
  paymentMethod : String
deriving DecidableEq, Repr

/-- orders.js:15-126, the create-order route: validate fields, run the
per-item check/snapshot loop, price the order, persist it, then run the
stock-decrement loop.  The order number is passed in (the source draws it
from a random generator in the model layer). -/
def createOrder (req : CreateOrderRequest) (orderNumber : String) (now : Int)
    (st : Store) : Except CreateOrderError Order × Store :=
  match req.customer, req.shippingAddress with
  | some customer, some shippingAddress =>
    if req.items.isEmpty || req.paymentMethod == "" then
      (Except.error CreateOrderError.missingFields, st)
    else
      match buildOrderItems st.products req.items with
      | Except.error e => (Except.error e, st)
      | Except.ok (orderItems, subtotal) =>
        let shippingCost :=
          calculateShipping shippingAddress.region
            (req.items.foldl (fun s item => s + item.quantity) 0)
        let discount : Int := 0
        let order : Order :=
          mkOrder orderNumber customer shippingAddress req.paymentMethod
            orderItems subtotal shippingCost discount now
        let products' :=
          req.items.foldl
            (fun ps item => decrementStock ps item.productId item.quantity) st.products
        (Except.ok order, { products := products', orders := st.orders ++ [order] })
  | _, _ => (Except.error CreateOrderError.missingFields, st)

/-! ## src/routes/orders.js : later order operations -/

def validStatuses : List String :=
  ["pending", "confirmed", "processing", "shipped", "delivered", "cancelled", "returned"]

/-- orders.js:231-296, the admin status-update route, acting on one fetched
order document. -/
def updateOrderStatus (o : Order) (status : String) (message : Option String)
    (courierName : Option String) (trackingNumber : Option String) (now : Int) :
    Except String Order :=
  if !(validStatuses.contains status) then
    Except.error "Invalid status"
  else
    let o₁ := { o with status := status }
    let o₂ := { o₁ with timeline := o₁.timeline ++
        [{ status := status, message := message.getD ("Order " ++ status),
           timestamp := now }] }
    let o₃ :=
      if courierName.isSome || trackingNumber.isSome then
        { o₂ with courier := some (
            { name :=
                match courierName with
                | some n => some n
                | none => o₂.courier.bind CourierInfo.name
              trackingNumber :=
                match trackingNumber with
                | some t => some t
                | none => o₂.courier.bind CourierInfo.trackingNumber } : CourierInfo) }
      else o₂
    let o₄ := if status == "delivered" then { o₃ with deliveredAt := some now } else o₃
    Except.ok o₄

/-- orders.js:299-337, the admin verify-payment route, acting on one fetched
order document: records the submitted details and sets paymentStatus to paid,
with no comparison against the order total and no check of the prior status. -/
def verifyPayment (o : Order) (transactionId senderNumber : String) (amount : Int)
    (adminId : Nat) (now : Int) : Order :=
  { o with
    paymentDetails := some { transactionId := transactionId, senderNumber := senderNumber,
                             amount := amount, verifiedBy := adminId, verifiedAt := now }
    paymentStatus := PaymentStatus.paid }

/-- orders.js:340-383, the customer return-request route, acting on one
fetched order document. -/
def requestReturn (o : Order) (reason : String) : Except String Order :=
  if o.status != "delivered" then
    Except.error "Only delivered orders can be returned"
  else
    let rr : ReturnRequest := { requested := true, reason := reason, status := "pending" }
    Except.ok { o with returnRequest := some rr }

/-- Bool test for an item-shaped rejection of the create-order route. -/
def createOrderErrorIsItem (r : Except CreateOrderError Order) : Bool :=
  match r with
  | Except.error (CreateOrderError.productNotFound _) => true
  | Except.error (CreateOrderError.insufficientStock _) => true
  | _ => false

/-! ## src/unnamed/part_000 : reviews -/

/-- The fields of the Review model (models/index.js:98) the verified routes
read or write. -/
structure Review where
  id : Nat
  product : Nat
  user : Nat
  rating : Int
  comment : String
  status : String
deriving DecidableEq, Repr

structure ReviewStore where
  reviews : List Review
  products : List Product
deriving DecidableEq, Repr

/-- The currently-approved reviews of a product, matched by its ObjectId. -/
def approvedReviews (rs : List Review) (pid : Nat) : List Review :=
  rs.filter (fun r => r.product == pid && r.status == "approved")

/-- The product-id value a caller hands to updateProductRating.  Mongoose
casts query filters and created documents against the schema, but it does not
cast aggregation pipelines: a $match comparing the stored ObjectId-typed
product field against a raw request-body string never matches, while a value
that is already an ObjectId compares by id. -/
inductive MatchValue where
  | objectId (id : Nat) : MatchValue
  | rawString (id : Nat) : MatchValue
deriving DecidableEq, Repr

/-- Uncast equality of a $match value against the ObjectId-typed product
field: a raw string equals no ObjectId. -/
def matchesId : MatchValue → Nat → Bool
  | MatchValue.objectId i, field => field == i
  | MatchValue.rawString _, _ => false

/-- The id Mongoose casts the value to in a query position such as
findByIdAndUpdate, where casting does apply. -/
def castId : MatchValue → Nat
  | MatchValue.objectId i => i
  | MatchValue.rawString i => i

/-- The reviews the aggregation $match of updateProductRating (part_000:254)
selects: product field equal to the uncast value and status approved. -/
def aggregApproved (rs : List Review) (v : MatchValue) : List Review :=
  rs.filter (fun r => matchesId v r.product && r.status == "approved")

/-- `Math.round q` (round half toward positive infinity). -/
def jsRound (q : Rat) : Int := ⌊q + 1 / 2⌋

/-- part_000:251-271 updateProductRating: aggregate the approved reviews the
uncast $match selects; when at least one exists, store the mean rating
rounded to one decimal and the approved count on the product (a query
position, so the id is cast); otherwise leave the products untouched. -/
def updateProductRating (pid : MatchValue) (st : ReviewStore) : ReviewStore :=
  let approved := aggregApproved st.reviews pid
  if approved.length > 0 then
    let averageRating : Rat :=
      ((approved.map fun r => (r.rating : Rat)).sum) / (approved.length : Rat)
    let newRating : Rat := (jsRound (averageRating * 10) : Rat) / 10
    { st with products := st.products.map fun p =>
        if p.id == castId pid then
          { p with rating := newRating, reviewCount := (approved.length : Int) }
        else p }
  else st

/-- Spec wording (spec.md section 4.5 and the claim): the arithmetic mean of a
list of ratings, rounded to one decimal place. -/
def ratingSpec (ratings : List Int) : Rat :=
  (jsRound (((ratings.map fun x : Int => (x : Rat)).sum / (ratings.length : Rat)) * 10) : Rat) / 10

/-- part_000:132-180, the admin moderation route: set the review status, then
recompute the product rating only when the new status is approved. -/
def moderateReview (reviewId : Nat) (status : String) (st : ReviewStore) :
    Except String ReviewStore :=
  if !(["approved", "rejected"].contains status) then
    Except.error "Invalid status"
  else
    match st.reviews.find? (fun r => r.id == reviewId) with
    | none => Except.error "Review not found"
    | some review =>
      let st₁ := { st with reviews := st.reviews.map fun r =>
          if r.id == reviewId then { r with status := status } else r }
      if status == "approved" then
        Except.ok (updateProductRating (MatchValue.objectId review.product) st₁)
      else Except.ok st₁

/-- part_000:8-80, the review-creation route: validate (the duplicate check
is a findOne, a cast query position, so the Nat comparison is faithful),
create the review with status pending (Review.create casts, so the stored
product field is an ObjectId), then call updateProductRating with the raw
req.body productId string, which the uncast aggregation never matches.  Falsy
required fields (rating 0, empty comment) are rejected by the first guard,
mirroring the JS truthiness test. -/
def createReview (userId productId : Nat) (rating : Int) (comment : String)
    (newId : Nat) (st : ReviewStore) : Except String ReviewStore :=
  if productId == 0 || rating == 0 || comment == "" then
    Except.error "Product, rating, and comment are required"
  else if rating < 1 || rating > 5 then
    Except.error "Rating must be between 1 and 5"
  else if (st.reviews.find? (fun r => r.product == productId && r.user == userId)).isSome then
    Except.error "You have already reviewed this product"
  else
    let st₁ := { st with reviews := st.reviews ++
        [{ id := newId, product := productId, user := userId, rating := rating,
           comment := comment, status := "pending" }] }
    Except.ok (updateProductRating (MatchValue.rawString productId) st₁)

/-! ## Concrete stores and requests used in the closed theorems -/

def c1Product : Product :=
  { id := 1, title := "Widget", price := 100, stock := 1, salesCount := 0,
    rating := 0, reviewCount := 0 }

def c1Store : Store := { products := [c1Product], orders := [] }

/-- A create-order request whose two line items reference the same product. -/
def c1Request : CreateOrderRequest :=
  { customer := some { name := "Asha", email := "asha@example.com", phone := "01712345678" }
    shippingAddress := some { region := "Dhaka", city := "Dhaka", address := "House 1" }
    items := [{ productId := 1, quantity := 1 }, { productId := 1, quantity := 1 }]
    paymentMethod := "cod" }

/-- A create-order request referencing a product id absent from c1Store. -/
def c2Request : CreateOrderRequest :=
  { customer := some { name := "Badal", email := "badal@example.com", phone := "01811111111" }
    shippingAddress := some { region := "Sylhet", city := "Sylhet", address := "House 2" }
    items := [{ productId := 2, quantity := 1 }]
    paymentMethod := "bkash" }

def c3Record : OtpRecord :=
  { phone := "01712345678", otp := "123456", purpose := "login",
    expiresAt := 300000, verified := false, attempts := 0 }

def c3Db : List OtpRecord := [c3Record]

def c4Db : List OtpRecord :=
  [{ phone := "01911111111", otp := "654321", purpose := "signup",
     expiresAt := 300000, verified := false, attempts := 0 }]

def c6Store : Store :=
  { products := [{ id := 1, title := "Widget", price := 100, stock := 5, salesCount := 0,
                   rating := 0, reviewCount := 0 }], orders := [] }

def c6Request : CreateOrderRequest :=
  { customer := some { name := "Chitra", email := "chitra@example.com", phone := "01911111111" }
    shippingAddress := some { region := "Dhaka", city := "Dhaka", address := "House 3" }
    items := [{ productId := 1, quantity := 2 }]
    paymentMethod := "cod" }

/-- The order createOrder produces from c6Request on c6Store. -/
def c6Order : Order :=
  { orderNumber := "TUA-00000001-AAAAA"
    customer := { name := "Chitra", email := "chitra@example.com", phone := "01911111111" }
    shippingAddress := { region := "Dhaka", city := "Dhaka", address := "House 3" }
    items := [{ product := 1, title := "Widget", price := 100, quantity := 2, subtotal := 200 }]
    subtotal := 200
    shippingCost := 60
    discount := 0
    total := 260
    paymentMethod := "cod"
    paymentStatus := PaymentStatus.unpaid
    status := "pending"
    timeline := [{ status := "pending", message := "Order placed successfully", timestamp := 0 }]
    courier := none
    deliveredAt := none
    paymentDetails := none
    returnRequest := none }

def c6OrderDelivered : Order := { c6Order with status := "delivered" }

def c8Store : ReviewStore :=
  { reviews := [{ id := 1, product := 1, user := 1, rating := 4, comment := "Good",
                  status := "pending" }]
    products := [{ id := 1, title := "Widget", price := 100, stock := 5, salesCount := 0,
                   rating := 0, reviewCount := 0 }] }

/-- c6OrderDelivered after a return request with reason "damaged". -/
def c6Returned : Order :=
  { c6OrderDelivered with
    returnRequest := some ({ requested := true, reason := "damaged", status := "pending" } : ReturnRequest) }

/-- The review document of c8Store as created, before moderation. -/
def c8Review : Review :=
  { id := 1, product := 1, user := 1, rating := 4, comment := "Good", status := "pending" }

/-- c8Store after moderating review 1 to approved: the review approved, the
product rating recomputed to 4 with reviewCount 1. -/
def c8After : ReviewStore :=
  { reviews := [{ id := 1, product := 1, user := 1, rating := 4, comment := "Good",
                  status := "approved" }]
    products := [{ id := 1, title := "Widget", price := 100, stock := 5, salesCount := 0,
                   rating := 4, reviewCount := 1 }] }

def c8AfterProduct : Product :=
  { id := 1, title := "Widget", price := 100, stock := 5, salesCount := 0,
    rating := 4, reviewCount := 1 }

/-- c8Store after user 2 submits a pending review: the review list grows, the
products are untouched (no approved review exists yet). -/
def c8CreateAfter : ReviewStore :=
  { reviews := c8Store.reviews ++
      [{ id := 2, product := 1, user := 2, rating := 5, comment := "Nice",
         status := "pending" }]
    products := c8Store.products }

/-! ## C7: the shipping formula -/

/-- Helper: the shipping formula, pointwise. -/
theorem calculateShipping_eq_spec (region : String) (itemCount : Int) :
    calculateShipping region itemCount = shippingSpec region itemCount := by
  have hbase :
      jsOr ((shippingRates.find? (fun rt => rt.1 == region)).map (·.2)) 100 =
        shippingSpecBase region := by
    rcases eq_or_ne region "Dhaka" with h1 | h1
    · subst h1; decide
    rcases eq_or_ne region "Chittagong" with h2 | h2
    · subst h2; decide
    rcases eq_or_ne region "Sylhet" with h3 | h3
    · subst h3; decide
    rcases eq_or_ne region "Rajshahi" with h4 | h4
    · subst h4; decide
    rcases eq_or_ne region "Khulna" with h5 | h5
    · subst h5; decide
    rcases eq_or_ne region "Barisal" with h6 | h6
    · subst h6; decide
    rcases eq_or_ne region "Rangpur" with h7 | h7
    · subst h7; decide
    rcases eq_or_ne region "Mymensingh" with h8 | h8
    · subst h8; decide
    have f1 : ("Dhaka" == region) = false := beq_eq_false_iff_ne.mpr (Ne.symm h1)
    have f2 : ("Chittagong" == region) = false := beq_eq_false_iff_ne.mpr (Ne.symm h2)
    have f3 : ("Sylhet" == region) = false := beq_eq_false_iff_ne.mpr (Ne.symm h3)
    have f4 : ("Rajshahi" == region) = false := beq_eq_false_iff_ne.mpr (Ne.symm h4)
    have f5 : ("Khulna" == region) = false := beq_eq_false_iff_ne.mpr (Ne.symm h5)
    have f6 : ("Barisal" == region) = false := beq_eq_false_iff_ne.mpr (Ne.symm h6)
    have f7 : ("Rangpur" == region) = false := beq_eq_false_iff_ne.mpr (Ne.symm h7)
    have f8 : ("Mymensingh" == region) = false := beq_eq_false_iff_ne.mpr (Ne.symm h8)
    simp [shippingRates, List.find?, f1, f2, f3, f4, f5, f6, f7, f8, jsOr,
      shippingSpecBase, h1, h2, h3, h4, h5, h6, h7, h8]
  simp only [calculateShipping, shippingSpec]
  rw [hbase]

/-- C7: the computed shipping cost equals the spec formula — the region's
base rate from the fixed flat-rate table (default fallback 100 for unlisted
regions) plus max(0, totalItemCount - 3) * 20 — for every region and count;
and the shipping cost every created order stores is that formula applied to
the sum of the requested quantities across its line items. -/
theorem calculateShipping_matches_spec :
    (∀ (region : String) (totalItemCount : Int),
      calculateShipping region totalItemCount = shippingSpec region totalItemCount) ∧
    (∀ (req : CreateOrderRequest) (orderNumber : String) (now : Int) (st : Store)
        (ord : Order) (a : Address), req.shippingAddress = some a →
      (createOrder req orderNumber now st).1 = Except.ok ord →
      ord.shippingCost =
        shippingSpec a.region (req.items.foldl (fun s item => s + item.quantity) 0)) := by
  refine ⟨calculateShipping_eq_spec, ?_⟩
  intro req orderNumber now st ord a ha h
  cases hc : req.customer with
  | none => simp [createOrder, hc] at h
  | some c =>
    simp only [createOrder, hc, ha] at h
    by_cases hval : (req.items.isEmpty || (req.paymentMethod == "")) = true
    · rw [if_pos hval] at h; simp at h
    · rw [if_neg hval] at h
      cases hb : buildOrderItems st.products req.items with
      | error e => rw [hb] at h; simp at h
      | ok pr =>
        obtain ⟨oi, sub⟩ := pr
        rw [hb] at h
        simp only [] at h
        injection h with h
        subst h
        exact calculateShipping_eq_spec a.region _

/-- C7 witness: the order created from c6Request stores the Dhaka base rate
with no surcharge for its two items. -/
theorem calculateShipping_matches_spec_witness :
    c6Order.shippingCost =
      shippingSpec "Dhaka" (c6Request.items.foldl (fun s item => s + item.quantity) 0) :=
  calculateShipping_matches_spec.2 c6Request "TUA-00000001-AAAAA" 0 c6Store c6Order
    { region := "Dhaka", city := "Dhaka", address := "House 3" } rfl rfl

/-! ## C9: payment verification is unconditional -/

/-- C9: the admin payment-verification operation sets paymentStatus to paid
and records the submitted details for every order and every submitted amount:
the result is a function of the inputs that never compares the amount with the
order total and never inspects the prior paymentStatus. -/
theorem verifyPayment_unconditionally_paid (o : Order) (transactionId senderNumber : String)
    (amount : Int) (adminId : Nat) (now : Int) :
    (verifyPayment o transactionId senderNumber amount adminId now).paymentStatus =
      PaymentStatus.paid ∧
    (verifyPayment o transactionId senderNumber amount adminId now).paymentDetails =
      some { transactionId := transactionId, senderNumber := senderNumber, amount := amount,
             verifiedBy := adminId, verifiedAt := now } ∧
    (∀ amount₂ : Int, verifyPayment o transactionId senderNumber amount₂ adminId now =
      { o with
        paymentDetails := some { transactionId := transactionId, senderNumber := senderNumber,
                                 amount := amount₂, verifiedBy := adminId, verifiedAt := now }
        paymentStatus := PaymentStatus.paid }) ∧
    (∀ prior : PaymentStatus,
      (verifyPayment { o with paymentStatus := prior } transactionId senderNumber amount
          adminId now).paymentStatus = PaymentStatus.paid) :=
  ⟨rfl, rfl, fun _ => rfl, fun _ => rfl⟩

/-! ## C1: the stock decrement is not conditioned on remaining stock -/

/-- C1 is violated by the code: the stock-update loop uses an unconditional
increment (orders.js:100-105), so a single create-order execution whose two
line items reference the same product (stock 1, quantity 1 each) passes the
read-time checks, is accepted, and drives the stock to -1: at the second
write the stock (0) is below the ordered quantity (1) yet the decrement still
occurs, breaking the stock non-negativity invariant. -/
theorem createOrder_unconditional_decrement_oversells :
    (createOrder c1Request "TUA-00000001-AAAAA" 0 c1Store).1.toOption.isSome = true ∧
    (createOrder c1Request "TUA-00000001-AAAAA" 0 c1Store).2.products.map Product.stock =
      [(-1 : Int)] := by
  decide

/-! ## C3: wrong-code attempts are never counted -/

/-- C3 is violated by the code: verifyOTP looks the record up by phone, code,
purpose (helpers.js:55-61), so a verify call with a wrong code finds nothing,
returns invalid-or-expired and leaves the store untouched — the attempts
counter never increments.  Four consecutive wrong-code attempts leave the
record in place (each call returns the unchanged store, so the four calls
compose to the identity on it), and a fifth attempt with the correct original
code still succeeds, contradicting the claimed deletion and too-many-attempts
failure. -/
theorem verifyOTP_wrong_code_not_limited :
    verifyOTP "01712345678" "000000" "login" 1000 c3Db =
      (OtpResult.invalidOrExpired, c3Db) ∧
    verifyOTP "01712345678" "000000" "login" 1100 c3Db =
      (OtpResult.invalidOrExpired, c3Db) ∧
    verifyOTP "01712345678" "000000" "login" 1200 c3Db =
      (OtpResult.invalidOrExpired, c3Db) ∧
    verifyOTP "01712345678" "000000" "login" 1300 c3Db =
      (OtpResult.invalidOrExpired, c3Db) ∧
    (verifyOTP "01712345678" "123456" "login" 1400 c3Db).1 = OtpResult.success := by
  decide

/-! ## C5 counterexample: a configuration with max = 0 -/

/-- C5 as stated fails for the degenerate configuration max = 0: more than
windowMs has elapsed past the window start, yet the next request is rejected
(the reset counter is incremented to 1, which already exceeds max). -/
theorem rateLimit_expired_window_rejected_at_max_zero :
    (2000 : Int) - 0 > 1000 ∧
    (rateLimitStep { windowMs := 1000, max := 0 } 2000
        (some { count := 7, resetTime := 0 })).1 = RateDecision.reject 1 := by
  decide

/-! ## Helper lemmas about the per-item loop -/

/-- If the per-item loop succeeds, every requested item referenced an existing
product with sufficient stock. -/
theorem buildOrderItems_ok_sound (ps : List Product) (items : List ItemRequest)
    (res : List OrderItem × Int) (h : buildOrderItems ps items = Except.ok res) :
    ∀ item ∈ items, ∃ p, findProduct ps item.productId = some p ∧
      ¬p.stock < item.quantity := by
  induction items generalizing res with
  | nil => intro item hmem; simp at hmem
  | cons hd tl ih =>
    intro item hmem
    simp only [buildOrderItems] at h
    cases hp : findProduct ps hd.productId with
    | none => rw [hp] at h; simp at h
    | some product =>
      rw [hp] at h
      simp only [] at h
      by_cases hs : product.stock < hd.quantity
      · rw [if_pos hs] at h; simp at h
      · rw [if_neg hs] at h
        cases hb : buildOrderItems ps tl with
        | error e => rw [hb] at h; simp at h
        | ok pr =>
          rcases List.mem_cons.mp hmem with rfl | hmem₂
          · exact ⟨product, hp, hs⟩
          · exact ih pr hb item hmem₂

/-- Every error of the per-item loop names a product: it is productNotFound or
insufficientStock, never the field-validation error. -/
theorem buildOrderItems_error_named (ps : List Product) (items : List ItemRequest)
    (e : CreateOrderError) (h : buildOrderItems ps items = Except.error e) :
    e.itemError := by
  induction items generalizing e with
  | nil => simp [buildOrderItems] at h
  | cons hd tl ih =>
    simp only [buildOrderItems] at h
    cases hp : findProduct ps hd.productId with
    | none =>
      rw [hp] at h
      injection h with he
      subst he; trivial
    | some product =>
      rw [hp] at h
      simp only [] at h
      by_cases hs : product.stock < hd.quantity
      · rw [if_pos hs] at h
        injection h with he
        subst he; trivial
      · rw [if_neg hs] at h
        cases hb : buildOrderItems ps tl with
        | error e₂ =>
          rw [hb] at h
          simp only [] at h
          injection h with he
          subst he; exact ih e₂ hb
        | ok pr =>
          obtain ⟨tail, rsub⟩ := pr
          rw [hb] at h
          simp at h

/-! ## C2: a bad line item rejects the whole order and mutates nothing -/

/-- C2: when some requested line item references a missing product or asks for
more than its stock, create-order rejects the request and leaves the store
untouched (no order appended, no product changed); when the field validation
passes, the rejection is a product-not-found or insufficient-stock error
naming the product. -/
theorem createOrder_rejects_bad_item_without_mutation
    (req : CreateOrderRequest) (orderNumber : String) (now : Int) (st : Store)
    (hbad : ∃ item ∈ req.items,
      findProduct st.products item.productId = none ∨
        ∃ p, findProduct st.products item.productId = some p ∧ p.stock < item.quantity) :
    (createOrder req orderNumber now st).1.toOption = none ∧
    (createOrder req orderNumber now st).2 = st ∧
    (req.customer.isSome = true → req.shippingAddress.isSome = true →
      (req.paymentMethod == "") = false →
      createOrderErrorIsItem (createOrder req orderNumber now st).1 = true) := by
  obtain ⟨item, hmem, hbaditem⟩ := hbad
  have hbuild : ∃ e, buildOrderItems st.products req.items = Except.error e := by
    cases hb : buildOrderItems st.products req.items with
    | error e => exact ⟨e, rfl⟩
    | ok res =>
      obtain ⟨p, hp, hstock⟩ := buildOrderItems_ok_sound st.products req.items res hb item hmem
      rcases hbaditem with hnone | ⟨p₂, hp₂, hlt⟩
      · rw [hp] at hnone; simp at hnone
      · rw [hp] at hp₂
        injection hp₂ with he
        subst he
        exact absurd hlt hstock
  obtain ⟨eb, hb⟩ := hbuild
  have hne : req.items.isEmpty = false := by
    cases hi : req.items with
    | nil => rw [hi] at hmem; simp at hmem
    | cons a l => simp
  cases hc : req.customer with
  | none =>
    refine ⟨?_, ?_, ?_⟩ <;> simp [createOrder, hc, Except.toOption]
  | some c =>
    cases ha : req.shippingAddress with
    | none =>
      refine ⟨?_, ?_, ?_⟩ <;> simp [createOrder, hc, ha, Except.toOption]
    | some a =>
      by_cases hpm : (req.paymentMethod == "") = true
      · have hcond : (req.items.isEmpty || (req.paymentMethod == "")) = true := by
          rw [hpm]; simp
        refine ⟨?_, ?_, ?_⟩
        · simp [createOrder, hc, ha, hcond, Except.toOption]
        · simp [createOrder, hc, ha, hcond]
        · intro _ _ hpm₂
          rw [hpm] at hpm₂; cases hpm₂
      · have hcond : (req.items.isEmpty || (req.paymentMethod == "")) = false := by
          rw [hne, Bool.eq_false_iff.mpr hpm]; simp
        have hco : createOrder req orderNumber now st = (Except.error eb, st) := by
          simp [createOrder, hc, ha, hcond, hb]
        refine ⟨by rw [hco]; rfl, by rw [hco], ?_⟩
        intro _ _ _
        rw [hco]
        have := buildOrderItems_error_named st.products req.items eb hb
        cases eb with
        | missingFields => exact absurd this (by simp [CreateOrderError.itemError])
        | productNotFound pid => rfl
        | insufficientStock t => rfl

/-- C2 witness: a concrete request whose single line item references the
missing product id 2 on the one-product store c1Store. -/
theorem createOrder_rejects_bad_item_witness :
    (createOrder c2Request "TUA-00000002-BBBBB" 0 c1Store).1.toOption = none ∧
    (createOrder c2Request "TUA-00000002-BBBBB" 0 c1Store).2 = c1Store ∧
    createOrderErrorIsItem (createOrder c2Request "TUA-00000002-BBBBB" 0 c1Store).1 = true := by
  have h := createOrder_rejects_bad_item_without_mutation c2Request "TUA-00000002-BBBBB" 0
    c1Store ⟨{ productId := 2, quantity := 1 }, by decide, Or.inl (by decide)⟩
  exact ⟨h.1, h.2.1, h.2.2 (by decide) (by decide) (by decide)⟩

/-! ## C4: a consumed OTP cannot be verified again -/

/-- otpMatches implies the (phone, purpose) pair matches. -/
theorem otpMatches_pair (phone code purpose : String) (t : Int) (x : OtpRecord)
    (hx : otpMatches phone code purpose t x = true) :
    (x.phone == phone && x.purpose == purpose) = true := by
  simp only [otpMatches, Bool.and_eq_true] at hx
  simp [hx.1.1.1.1, hx.1.1.2]

/-- After the successful verify writes back the consumed record, no record
matching (phone, code, purpose, unverified) remains, at any query time —
provided the store held at most one record for the (phone, purpose) pair, the
invariant saveOTP maintains. -/
theorem verifyOTP_consumed_aux (phone code purpose : String) (now now' : Int)
    (db : List OtpRecord) :
    ∀ doc : OtpRecord,
      db.find? (otpMatches phone code purpose now) = some doc →
      (db.filter fun r => r.phone == phone && r.purpose == purpose).length ≤ 1 →
      (replaceFirst db doc
          { doc with attempts := doc.attempts + 1, verified := true }).find?
        (otpMatches phone code purpose now') = none := by
  induction db with
  | nil => intro doc h _; simp [List.find?] at h
  | cons r rest ih =>
    intro doc hfind huniq
    by_cases hpr : otpMatches phone code purpose now r = true
    · have hd : r = doc := by
        rw [List.find?_cons_of_pos _ hpr] at hfind
        injection hfind
      subst hd
      have hrep : replaceFirst (r :: rest) r
          { r with attempts := r.attempts + 1, verified := true } =
          { r with attempts := r.attempts + 1, verified := true } :: rest := by
        simp [replaceFirst]
      rw [hrep]
      have hpair : (r.phone == phone && r.purpose == purpose) = true :=
        otpMatches_pair phone code purpose now r hpr
      have hfilter : (rest.filter fun x => x.phone == phone && x.purpose == purpose) = [] := by
        have : ((r :: rest).filter fun x => x.phone == phone && x.purpose == purpose) =
            r :: (rest.filter fun x => x.phone == phone && x.purpose == purpose) := by
          simp [List.filter, hpair]
        rw [this, List.length_cons] at huniq
        exact List.eq_nil_of_length_eq_zero (by omega)
      have hnone : rest.find? (otpMatches phone code purpose now') = none := by
        apply List.find?_eq_none.mpr
        intro x hx hmx
        have hxpair := otpMatches_pair phone code purpose now' x hmx
        have : x ∈ rest.filter fun y => y.phone == phone && y.purpose == purpose :=
          List.mem_filter.mpr ⟨hx, hxpair⟩
        rw [hfilter] at this
        cases this
      rw [List.find?_cons_of_neg, hnone]
      simp [otpMatches]
    · rw [List.find?_cons_of_neg _ (by simpa using hpr)] at hfind
      have hdocp : otpMatches phone code purpose now doc = true := List.find?_some hfind
      have hdocmem : doc ∈ rest := List.mem_of_find?_eq_some hfind
      have hrd : ¬r = doc := fun h => hpr (h ▸ hdocp)
      have hrep : replaceFirst (r :: rest) doc
          { doc with attempts := doc.attempts + 1, verified := true } =
          r :: replaceFirst rest doc
            { doc with attempts := doc.attempts + 1, verified := true } := by
        simp [replaceFirst, hrd]
      rw [hrep]
      have hdocpair := otpMatches_pair phone code purpose now doc hdocp
      have hdocfil : doc ∈ rest.filter fun y => y.phone == phone && y.purpose == purpose :=
        List.mem_filter.mpr ⟨hdocmem, hdocpair⟩
      have hrpair : (r.phone == phone && r.purpose == purpose) = false := by
        by_contra hcon
        have hrp : (r.phone == phone && r.purpose == purpose) = true :=
          eq_true_of_ne_false hcon
        have hsplit : ((r :: rest).filter fun x => x.phone == phone && x.purpose == purpose) =
            r :: (rest.filter fun x => x.phone == phone && x.purpose == purpose) := by
          simp [List.filter, hrp]
        rw [hsplit, List.length_cons] at huniq
        have : 0 < (rest.filter fun y => y.phone == phone && y.purpose == purpose).length :=
          List.length_pos_of_mem hdocfil
        omega
      have hpr' : otpMatches phone code purpose now' r = false := by
        by_contra hcon
        have := otpMatches_pair phone code purpose now' r (eq_true_of_ne_false hcon)
        rw [hrpair] at this
        cases this
      rw [List.find?_cons_of_neg _ (by simp [hpr'])]
      apply ih doc hfind
      have hsub : (rest.filter fun x => x.phone == phone && x.purpose == purpose).length ≤
          ((r :: rest).filter fun x => x.phone == phone && x.purpose == purpose).length := by
        simp [List.filter, hrpair]
      omega

/-- C4: once a verify call for (phone, code, purpose) succeeds, every
subsequent verify call with the same arguments fails as invalid-or-expired, at
any later query time: the success wrote verified = true into the record and
the lookup filters on verified = false.  The hypothesis that the store holds
at most one record for the (phone, purpose) pair is the invariant saveOTP
establishes by deleting old records before inserting the fresh one. -/
theorem verifyOTP_single_use (phone code purpose : String) (now now' : Int)
    (db : List OtpRecord)
    (huniq : (db.filter fun r => r.phone == phone && r.purpose == purpose).length ≤ 1)
    (hs : (verifyOTP phone code purpose now db).1 = OtpResult.success) :
    (verifyOTP phone code purpose now'
        (verifyOTP phone code purpose now db).2).1 = OtpResult.invalidOrExpired := by
  cases hf : db.find? (otpMatches phone code purpose now) with
  | none => simp [verifyOTP, hf] at hs
  | some doc =>
    by_cases hatt : doc.attempts + 1 > 3
    · simp only [verifyOTP, hf] at hs
      rw [if_pos hatt] at hs
      simp at hs
    · have hstate : (verifyOTP phone code purpose now db).2 =
          replaceFirst db doc { doc with attempts := doc.attempts + 1, verified := true } := by
        simp only [verifyOTP, hf]
        rw [if_neg hatt]
      rw [hstate]
      have h₂ := verifyOTP_consumed_aux phone code purpose now now' db doc hf huniq
      simp [verifyOTP, h₂]

/-- C4 witness: the single-record store c4Db, consumed at time 1000 and
queried again at time 2000. -/
theorem verifyOTP_single_use_witness :
    (verifyOTP "01911111111" "654321" "signup" 2000
        (verifyOTP "01911111111" "654321" "signup" 1000 c4Db).2).1 =
      OtpResult.invalidOrExpired :=
  verifyOTP_single_use "01911111111" "654321" "signup" 1000 2000 c4Db
    (by decide) (by decide)

/-! ## C6: the stored total is set once and never changed -/

/-- The subtotal the per-item loop accumulates is the sum over the snapshotted
line items of price times quantity. -/
theorem buildOrderItems_subtotal (ps : List Product) (items : List ItemRequest)
    (oi : List OrderItem) (sub : Int)
    (h : buildOrderItems ps items = Except.ok (oi, sub)) :
    sub = (oi.map fun it => it.price * it.quantity).sum := by
  induction items generalizing oi sub with
  | nil =>
    simp only [buildOrderItems] at h
    injection h with h
    injection h with h₁ h₂
    subst h₁; subst h₂
    simp
  | cons hd tl ih =>
    simp only [buildOrderItems] at h
    cases hp : findProduct ps hd.productId with
    | none => rw [hp] at h; simp at h
    | some product =>
      rw [hp] at h
      simp only [] at h
      by_cases hs : product.stock < hd.quantity
      · rw [if_pos hs] at h; simp at h
      · rw [if_neg hs] at h
        cases hb : buildOrderItems ps tl with
        | error e => rw [hb] at h; simp at h
        | ok pr =>
          obtain ⟨tail, rsub⟩ := pr
          rw [hb] at h
          simp only [] at h
          injection h with h
          injection h with h₁ h₂
          subst h₁; subst h₂
          have := ih tail rsub hb
          simp [this]

/-- C6: every order the create-order workflow persists stores
total = subtotal + shippingCost - discount exactly, with discount 0 and
subtotal the sum of line-item price times quantity, and is appended to the
order collection; the status-update, payment-verification and return-request
operations never change the stored total (nor subtotal, shippingCost,
discount). -/
theorem order_total_integrity :
    (∀ (req : CreateOrderRequest) (orderNumber : String) (now : Int) (st : Store)
        (ord : Order),
      (createOrder req orderNumber now st).1 = Except.ok ord →
      ord.discount = 0 ∧
      ord.total = ord.subtotal + ord.shippingCost - ord.discount ∧
      ord.subtotal = (ord.items.map fun it => it.price * it.quantity).sum ∧
      (createOrder req orderNumber now st).2.orders = st.orders ++ [ord]) ∧
    (∀ (o : Order) (status : String) (message courierName trackingNumber : Option String)
        (now : Int) (o₂ : Order),
      updateOrderStatus o status message courierName trackingNumber now = Except.ok o₂ →
      o₂.total = o.total ∧ o₂.subtotal = o.subtotal ∧
        o₂.shippingCost = o.shippingCost ∧ o₂.discount = o.discount) ∧
    (∀ (o : Order) (transactionId senderNumber : String) (amount : Int) (adminId : Nat)
        (now : Int),
      (verifyPayment o transactionId senderNumber amount adminId now).total = o.total ∧
      (verifyPayment o transactionId senderNumber amount adminId now).subtotal = o.subtotal ∧
      (verifyPayment o transactionId senderNumber amount adminId now).shippingCost =
        o.shippingCost ∧
      (verifyPayment o transactionId senderNumber amount adminId now).discount =
        o.discount) ∧
    (∀ (o : Order) (reason : String) (o₂ : Order),
      requestReturn o reason = Except.ok o₂ →
      o₂.total = o.total ∧ o₂.subtotal = o.subtotal ∧
        o₂.shippingCost = o.shippingCost ∧ o₂.discount = o.discount) := by
  refine ⟨?_, ?_, ?_, ?_⟩
  · intro req orderNumber now st ord h
    cases hc : req.customer with
    | none => simp [createOrder, hc] at h
    | some c =>
      cases ha : req.shippingAddress with
      | none => simp [createOrder, hc, ha] at h
      | some a =>
        simp only [createOrder, hc, ha] at h
        by_cases hval : (req.items.isEmpty || (req.paymentMethod == "")) = true
        · rw [if_pos hval] at h; simp at h
        · rw [if_neg hval] at h
          cases hb : buildOrderItems st.products req.items with
          | error e => rw [hb] at h; simp at h
          | ok pr =>
            obtain ⟨oi, sub⟩ := pr
            rw [hb] at h
            simp only [] at h
            injection h with h
            subst h
            refine ⟨rfl, rfl, ?_, ?_⟩
            · simpa [mkOrder] using buildOrderItems_subtotal st.products req.items oi sub hb
            · simp only [createOrder, hc, ha]
              rw [if_neg hval, hb]
  · intro o status message courierName trackingNumber now o₂ h
    simp only [updateOrderStatus] at h
    split at h
    · simp at h
    · injection h with h
      subst h
      refine ⟨?_, ?_, ?_, ?_⟩ <;>
        · split
          · split <;> rfl
          · split <;> rfl
  · intro o transactionId senderNumber amount adminId now
    exact ⟨rfl, rfl, rfl, rfl⟩
  · intro o reason o₂ h
    simp only [requestReturn] at h
    split at h
    · simp at h
    · injection h with h
      subst h
      exact ⟨rfl, rfl, rfl, rfl⟩

/-- C6 witness: a concrete creation on c6Store and a concrete return request
on the delivered order. -/
theorem order_total_integrity_witness :
    (c6Order.discount = 0 ∧
      c6Order.total = c6Order.subtotal + c6Order.shippingCost - c6Order.discount ∧
      c6Order.subtotal = (c6Order.items.map fun it => it.price * it.quantity).sum ∧
      (createOrder c6Request "TUA-00000001-AAAAA" 0 c6Store).2.orders =
        c6Store.orders ++ [c6Order]) ∧
    c6Returned.total = c6OrderDelivered.total :=
  ⟨order_total_integrity.1 c6Request "TUA-00000001-AAAAA" 0 c6Store c6Order rfl,
   (order_total_integrity.2.2.2 c6OrderDelivered "damaged" c6Returned rfl).1⟩

/-! ## C5 (amended): fixed-window rate limiting -/

/-- jsCeil1000 a is the least integer r with a ≤ 1000 r: the whole number of
seconds, rounded up, in a milliseconds. -/
theorem jsCeil1000_bounds (a : Int) :
    1000 * (jsCeil1000 a - 1) < a ∧ a ≤ 1000 * jsCeil1000 a := by
  have h := Int.fmod_add_fdiv (-a) 1000
  have h1 : 0 ≤ (-a).fmod 1000 := Int.fmod_nonneg' (-a) (by norm_num)
  have h2 : (-a).fmod 1000 < 1000 := Int.fmod_lt_of_pos (-a) (by norm_num)
  unfold jsCeil1000
  omega

/-- C5 (amended): one rate-limiter call (i) rejects exactly when the stored
window counter, incremented by this request, exceeds max; (ii) inside the
window it increments the counter and keeps the window start; (iii) on a fresh
key or once more than windowMs has elapsed past the window start it resets to
a fresh window with count 1, and is admitted provided max admits at least one
request per window (for max below 1 even the reset request is rejected, which
is the one amendment to the claim); (iv) a rejection reports retryAfter as the
number of seconds until the current window closes, rounded up to a whole
number. -/
theorem rateLimit_fixed_window (cfg : RateConfig) (now : Int) (entry : Option RateEntry) :
    ((rateLimitStep cfg now entry).1 ≠ RateDecision.allow ↔
      (rateLimitStep cfg now entry).2.count > cfg.max) ∧
    (∀ d, entry = some d → now - d.resetTime ≤ cfg.windowMs →
      (rateLimitStep cfg now entry).2 =
        { count := d.count + 1, resetTime := d.resetTime }) ∧
    ((entry = none ∨ ∃ d, entry = some d ∧ now - d.resetTime > cfg.windowMs) →
      (rateLimitStep cfg now entry).2 = { count := 1, resetTime := now } ∧
      (1 ≤ cfg.max → (rateLimitStep cfg now entry).1 = RateDecision.allow)) ∧
    (∀ r, (rateLimitStep cfg now entry).1 = RateDecision.reject r →
      1000 * (r - 1) < (rateLimitStep cfg now entry).2.resetTime + cfg.windowMs - now ∧
      (rateLimitStep cfg now entry).2.resetTime + cfg.windowMs - now ≤ 1000 * r) := by
  cases entry with
  | none =>
    simp only [rateLimitStep]
    by_cases hm : (0 : Int) + 1 > cfg.max
    · rw [if_pos hm]
      refine ⟨by simp; omega, ?_, ?_, ?_⟩
      · intro d hd; cases hd
      · intro _; exact ⟨rfl, fun h1 => absurd hm (by omega)⟩
      · intro r hr
        injection hr with hr
        subst hr
        exact jsCeil1000_bounds _
    · rw [if_neg hm]
      refine ⟨by simp; omega, ?_, ?_, ?_⟩
      · intro d hd; cases hd
      · intro _; exact ⟨rfl, fun _ => rfl⟩
      · intro r hr; cases hr
  | some d =>
    by_cases hexp : now - d.resetTime > cfg.windowMs
    · simp only [rateLimitStep, if_pos hexp]
      by_cases hm : (0 : Int) + 1 > cfg.max
      · rw [if_pos hm]
        refine ⟨by simp; omega, ?_, ?_, ?_⟩
        · intro d₂ hd₂ hle
          injection hd₂ with hd₂
          subst hd₂
          omega
        · intro _; exact ⟨rfl, fun h1 => absurd hm (by omega)⟩
        · intro r hr
          injection hr with hr
          subst hr
          exact jsCeil1000_bounds _
      · rw [if_neg hm]
        refine ⟨by simp; omega, ?_, ?_, ?_⟩
        · intro d₂ hd₂ hle
          injection hd₂ with hd₂
          subst hd₂
          omega
        · intro _; exact ⟨rfl, fun _ => rfl⟩
        · intro r hr; cases hr
    · simp only [rateLimitStep, if_neg hexp]
      by_cases hm : d.count + 1 > cfg.max
      · rw [if_pos hm]
        refine ⟨by simp [hm], ?_, ?_, ?_⟩
        · intro d₂ hd₂ hle
          injection hd₂ with hd₂
          subst hd₂
          rfl
        · intro hcase
          rcases hcase with hnone | ⟨d₂, hd₂, hgt⟩
          · cases hnone
          · injection hd₂ with hd₂
            subst hd₂
            exact absurd hgt hexp
        · intro r hr
          injection hr with hr
          subst hr
          exact jsCeil1000_bounds _
      · rw [if_neg hm]
        refine ⟨by simp [hm, le_of_not_lt hm], ?_, ?_, ?_⟩
        · intro d₂ hd₂ hle
          injection hd₂ with hd₂
          subst hd₂
          rfl
        · intro hcase
          rcases hcase with hnone | ⟨d₂, hd₂, hgt⟩
          · cases hnone
          · injection hd₂ with hd₂
            subst hd₂
            exact absurd hgt hexp
        · intro r hr; cases hr

/-- C5 witness: a request after the window has expired on a max-5 window is
admitted with the counter reset. -/
theorem rateLimit_fixed_window_witness :
    (rateLimitStep { windowMs := 1000, max := 5 } 2500
        (some { count := 3, resetTime := 1000 })).1 = RateDecision.allow :=
  ((rateLimit_fixed_window { windowMs := 1000, max := 5 } 2500
      (some { count := 3, resetTime := 1000 })).2.2.1
    (Or.inr ⟨{ count := 3, resetTime := 1000 }, rfl, by decide⟩)).2 (by decide)

/-! ## Helper lemmas about updateProductRating -/

/-- updateProductRating never touches the review collection. -/
theorem updateProductRating_reviews (pid : MatchValue) (s : ReviewStore) :
    (updateProductRating pid s).reviews = s.reviews := by
  simp only [updateProductRating]
  split <;> rfl

/-- When the $match selects at least one review, updateProductRating rewrites
the matching product with the rounded mean and the selected count. -/
theorem updateProductRating_products_pos (pid : MatchValue) (s : ReviewStore)
    (h : 0 < (aggregApproved s.reviews pid).length) :
    (updateProductRating pid s).products = s.products.map fun p =>
      if p.id == castId pid then
        { p with
          rating :=
            (jsRound ((((aggregApproved s.reviews pid).map fun r => (r.rating : Rat)).sum /
                ((aggregApproved s.reviews pid).length : Rat)) * 10) : Rat) / 10
          reviewCount := ((aggregApproved s.reviews pid).length : Int) }
      else p := by
  simp only [updateProductRating]
  rw [if_pos h]

/-- When the $match selects nothing, updateProductRating is the identity. -/
theorem updateProductRating_skip (pid : MatchValue) (s : ReviewStore)
    (h : (aggregApproved s.reviews pid).length = 0) :
    updateProductRating pid s = s := by
  simp only [updateProductRating]
  rw [if_neg (by omega)]

/-- An ObjectId-valued $match selects exactly the approved reviews of that
product. -/
theorem aggregApproved_objectId (rs : List Review) (pid : Nat) :
    aggregApproved rs (MatchValue.objectId pid) = approvedReviews rs pid := rfl

/-- A raw-string $match selects nothing: the uncast value never equals the
ObjectId-typed product field. -/
theorem aggregApproved_rawString (rs : List Review) (s : Nat) :
    aggregApproved rs (MatchValue.rawString s) = [] := by
  simp [aggregApproved, matchesId]

/-- updateProductRating_products_pos specialised to the moderation path,
where the id is an ObjectId. -/
theorem updateProductRating_products_obj (pid : Nat) (s : ReviewStore)
    (h : 0 < (approvedReviews s.reviews pid).length) :
    (updateProductRating (MatchValue.objectId pid) s).products = s.products.map fun p =>
      if p.id == pid then
        { p with
          rating :=
            (jsRound ((((approvedReviews s.reviews pid).map fun r => (r.rating : Rat)).sum /
                ((approvedReviews s.reviews pid).length : Rat)) * 10) : Rat) / 10
          reviewCount := ((approvedReviews s.reviews pid).length : Int) }
      else p :=
  updateProductRating_products_pos (MatchValue.objectId pid) s h

/-! ## C8: approval recomputes the rating as a full aggregation -/

/-- C8: when moderating review reviewId to approved succeeds, the product the
review refers to stores the arithmetic mean of the ratings of all
currently-approved reviews for that product (the just-approved one included),
rounded to one decimal, and its reviewCount is the approved count — a full
aggregation over the approved set, independent of the previously stored
rating and reviewCount. -/
theorem moderate_approved_recomputes_rating (reviewId : Nat) (st st₂ : ReviewStore)
    (review : Review)
    (hfind : st.reviews.find? (fun r => r.id == reviewId) = some review)
    (hmod : moderateReview reviewId "approved" st = Except.ok st₂) :
    0 < (approvedReviews st₂.reviews review.product).length ∧
    ∀ p, findProduct st₂.products review.product = some p →
      p.rating = ratingSpec ((approvedReviews st₂.reviews review.product).map (·.rating)) ∧
      p.reviewCount = ((approvedReviews st₂.reviews review.product).length : Int) := by
  simp only [moderateReview] at hmod
  rw [if_neg (by decide :
    ¬((!(["approved", "rejected"] : List String).contains "approved") = true))] at hmod
  rw [hfind] at hmod
  simp only [] at hmod
  rw [if_pos (by decide : (("approved" : String) == "approved") = true)] at hmod
  injection hmod with hmod
  subst hmod
  have hmem : review ∈ st.reviews := List.mem_of_find?_eq_some hfind
  have hid : (review.id == reviewId) = true := by
    have := List.find?_some hfind
    simpa using this
  have happ : ({ review with status := "approved" } : Review) ∈
      st.reviews.map (fun r =>
        if r.id == reviewId then { r with status := "approved" } else r) :=
    List.mem_map.mpr ⟨review, hmem, by simp [hid]⟩
  have hfil : ({ review with status := "approved" } : Review) ∈
      approvedReviews (st.reviews.map fun r =>
        if r.id == reviewId then { r with status := "approved" } else r) review.product :=
    List.mem_filter.mpr ⟨happ, by simp⟩
  have hlen : 0 < (approvedReviews (st.reviews.map fun r =>
      if r.id == reviewId then { r with status := "approved" } else r)
        review.product).length :=
    List.length_pos_of_mem hfil
  constructor
  · rw [updateProductRating_reviews]
    exact hlen
  · intro p hp
    rw [updateProductRating_reviews]
    unfold findProduct at hp
    rw [updateProductRating_products_obj _ _ hlen] at hp
    rw [List.find?_map] at hp
    have hpred : ((fun q : Product => q.id == review.product) ∘ fun p : Product =>
        if p.id == review.product then
          { p with
            rating :=
              (jsRound ((((approvedReviews (st.reviews.map fun r =>
                  if r.id == reviewId then { r with status := "approved" } else r)
                    review.product).map fun r => (r.rating : Rat)).sum /
                  ((approvedReviews (st.reviews.map fun r =>
                    if r.id == reviewId then { r with status := "approved" } else r)
                      review.product).length : Rat)) * 10) : Rat) / 10
            reviewCount := ((approvedReviews (st.reviews.map fun r =>
                if r.id == reviewId then { r with status := "approved" } else r)
                  review.product).length : Int) }
        else p) = fun q : Product => q.id == review.product := by
      funext q
      by_cases hq : (q.id == review.product) = true
      · simp [Function.comp, hq]
      · simp [Function.comp, hq]
    rw [hpred] at hp
    cases hq : (st.products).find? (fun q => q.id == review.product) with
    | none => rw [hq] at hp; cases hp
    | some q =>
      rw [hq] at hp
      simp only [Option.map] at hp
      injection hp with hp
      subst hp
      have hqid : (q.id == review.product) = true := by
        have := List.find?_some hq
        simpa using this
      constructor
      · rw [if_pos hqid]
        simp only [ratingSpec, List.map_map, List.length_map, Function.comp_def]
      · rw [if_pos hqid]

/-- C8 witness: approving the pending review of c8Store stores mean 4 and
count 1 on the product. -/
theorem moderate_approved_recomputes_rating_witness :
    0 < (approvedReviews c8After.reviews 1).length ∧
    (c8AfterProduct.rating = ratingSpec ((approvedReviews c8After.reviews 1).map (·.rating)) ∧
     c8AfterProduct.reviewCount = ((approvedReviews c8After.reviews 1).length : Int)) := by
  have hmod : moderateReview 1 "approved" c8Store = Except.ok c8After := by
    simp [moderateReview, c8Store, c8After, updateProductRating, aggregApproved, matchesId,
      castId, jsRound, List.find?]
    norm_num
  have h := moderate_approved_recomputes_rating 1 c8Store c8After c8Review rfl hmod
  exact ⟨h.1, h.2 c8AfterProduct (by decide)⟩

/-! ## C10: review submission never changes the stored rating -/

/-- C10: submitting a new review leaves the product collection — in
particular every product's stored rating and reviewCount — unchanged, and
appends the review with status pending.  Although creation triggers a rating
recomputation, that call receives the raw request-body product id, which the
uncast aggregation $match never equates with the ObjectId-typed product
field, so the aggregation selects nothing and the product update is skipped
on every submission; the new review, being pending, could not have
contributed to the approved-only aggregation in any case.  The rating fields
are therefore only ever changed by moderation. -/
theorem createReview_leaves_products_unchanged
    (userId productId : Nat) (rating : Int) (comment : String) (newId : Nat)
    (st st₂ : ReviewStore)
    (h : createReview userId productId rating comment newId st = Except.ok st₂) :
    st₂.products = st.products ∧
    st₂.reviews = st.reviews ++
      [{ id := newId, product := productId, user := userId, rating := rating,
         comment := comment, status := "pending" }] := by
  simp only [createReview] at h
  split at h
  · simp at h
  split at h
  · simp at h
  split at h
  · simp at h
  injection h with h
  subst h
  have hskip : updateProductRating (MatchValue.rawString productId)
      { st with reviews := st.reviews ++
          [{ id := newId, product := productId, user := userId, rating := rating,
             comment := comment, status := "pending" }] } =
      { st with reviews := st.reviews ++
          [{ id := newId, product := productId, user := userId, rating := rating,
             comment := comment, status := "pending" }] } :=
    updateProductRating_skip _ _ (by rw [aggregApproved_rawString]; rfl)
  rw [hskip]
  exact ⟨rfl, rfl⟩

/-- C10 witness: the concrete submission by user 2 on c8Store leaves the
product collection untouched and appends the pending review. -/
theorem createReview_leaves_products_unchanged_witness :
    c8CreateAfter.products = c8Store.products ∧
    c8CreateAfter.reviews = c8Store.reviews ++
      [{ id := 2, product := 1, user := 2, rating := 5, comment := "Nice",
         status := "pending" }] :=
  createReview_leaves_products_unchanged 2 1 5 "Nice" 2 c8Store c8CreateAfter rfl

end Tuavec
